import Mathlib

/-!
Shallow embedding of `src/main.py` (Music League Analytics dashboard).

The Python program loads four CSV tables (competitors, rounds, submissions,
votes) with pandas, builds two derived views by inner merges
(`submissions_with_rounds`, `votes_with_voters`), filters them by a selected
round and/or competitor, and computes aggregate statistics for display.

Tables are embedded as lists of records; pandas inner merges as
left-row-major joins (for each left row, all matching right rows in right
order — the order pandas documents for `how='inner'`); fallible steps
(missing required columns, unparsable timestamps, `iloc[0]` on an empty
selection, division by zero) as `Option`-returning functions.
-/

/-- A row of `data/competitors.csv` after loading: columns `ID`, `Name`. -/
structure Competitor where
  id : String
  name : String
deriving DecidableEq, Repr

/-- A row of `data/rounds.csv` after loading: columns `ID`, `Name`, `Created`
(the timestamp parsed by `pd.to_datetime`, modelled as a `Nat` instant). -/
structure Round where
  id : String
  name : String
  created : Nat
deriving DecidableEq, Repr

/-- A row of `data/submissions.csv` after loading: columns `Round ID`,
`Spotify URI`, `Submitter ID`, `Title`, `Artist(s)`, `Comment` (may be
missing, i.e. NaN — modelled as `Option`), `Created` (parsed). -/
structure Submission where
  roundId : String
  trackUri : String
  submitterId : String
  title : String
  artist : String
  comment : Option String
  created : Nat
deriving DecidableEq, Repr

/-- A row of `data/votes.csv` after loading: columns `Round ID`,
`Spotify URI`, `Voter ID`, `Points Assigned`, `Created` (parsed). -/
structure Vote where
  roundId : String
  trackUri : String
  voterId : String
  points : Int
  created : Nat
deriving DecidableEq, Repr

/-- A row of `submissions_with_rounds` (main.py lines 75-80):
`submissions.merge(rounds[['ID','Name']], left_on='Round ID', right_on='ID',
suffixes=('','_round'))`. The round's `Name` column joins in as `roundName`;
the duplicated `ID` column always equals `roundId` and is not kept here. -/
structure EnrichedSub where
  roundId : String
  trackUri : String
  submitterId : String
  title : String
  artist : String
  comment : Option String
  created : Nat
  roundName : String
deriving DecidableEq, Repr

/-- A row of `votes_with_submissions` (main.py lines 82-89): `votes.merge(
submissions_with_rounds[['Spotify URI','Title','Artist(s)','Round ID','Name',
'Comment']], on='Spotify URI', suffixes=('','_submission'))`. The vote's own
`Round ID` keeps its name (`roundId`); the submission side's `Round ID`
becomes `Round ID_submission` (`subRoundId`); the submission's round `Name`
joins in as `roundName`. -/
structure VoteWithSub where
  roundId : String
  trackUri : String
  voterId : String
  points : Int
  created : Nat
  title : String
  artist : String
  subRoundId : String
  roundName : String
  comment : Option String
deriving DecidableEq, Repr

/-- A row of `votes_with_voters` (main.py lines 91-96): the previous view
merged with `competitors[['ID','Name']]` on `Voter ID = ID`, the competitor's
`Name` joining in as `Name_voter` (`voterName`). -/
structure EnrichedVote where
  roundId : String
  trackUri : String
  voterId : String
  points : Int
  created : Nat
  title : String
  artist : String
  subRoundId : String
  roundName : String
  comment : Option String
  voterName : String
deriving DecidableEq, Repr

/-- The join `submissions_with_rounds` (main.py lines 75-80): inner merge of
submissions with rounds on `Round ID = ID`, left-row-major. -/
def mergeSubsRounds (submissions : List Submission) (rounds : List Round) :
    List EnrichedSub :=
  submissions.flatMap fun s =>
    (rounds.filter fun r => r.id == s.roundId).map fun r =>
      { roundId := s.roundId, trackUri := s.trackUri,
        submitterId := s.submitterId, title := s.title, artist := s.artist,
        comment := s.comment, created := s.created, roundName := r.name }

/-- One output row of the votes-to-submissions merge: the vote's columns
together with the joined submission columns. -/
def joinVoteSub (v : Vote) (e : EnrichedSub) : VoteWithSub :=
  { roundId := v.roundId, trackUri := v.trackUri, voterId := v.voterId,
    points := v.points, created := v.created, title := e.title,
    artist := e.artist, subRoundId := e.roundId, roundName := e.roundName,
    comment := e.comment }

/-- The join `votes_with_submissions` (main.py lines 82-89): inner merge of
votes with `submissions_with_rounds` on the single column `Spotify URI`
(`on='Spotify URI'` — NOT on the pair `(Round ID, Spotify URI)`). -/
def mergeVotesSubs (votes : List Vote) (es : List EnrichedSub) :
    List VoteWithSub :=
  votes.flatMap fun v =>
    (es.filter fun e => e.trackUri == v.trackUri).map (joinVoteSub v)

/-- One output row of the voter merge. -/
def joinVoteVoter (w : VoteWithSub) (c : Competitor) : EnrichedVote :=
  { roundId := w.roundId, trackUri := w.trackUri, voterId := w.voterId,
    points := w.points, created := w.created, title := w.title,
    artist := w.artist, subRoundId := w.subRoundId,
    roundName := w.roundName, comment := w.comment, voterName := c.name }

/-- The join `votes_with_voters` (main.py lines 91-96): inner merge with
competitors on `Voter ID = ID`. -/
def mergeVotesVoters (ws : List VoteWithSub) (competitors : List Competitor) :
    List EnrichedVote :=
  ws.flatMap fun w =>
    (competitors.filter fun c => c.id == w.voterId).map (joinVoteVoter w)

/-- A raw row of `data/competitors.csv` as read by `pd.read_csv`: a required
column that is absent from the file is modelled as `none` (accessing it in
`load_data` raises `KeyError`, caught by the enclosing `except`). -/
structure RawCompetitor where
  id : Option String
  name : Option String
deriving DecidableEq, Repr

/-- A raw round row; `created` is the unparsed `Created` string. -/
structure RawRound where
  id : Option String
  name : Option String
  created : Option String
deriving DecidableEq, Repr

/-- A raw submission row; `comment` is genuinely optional (NaN is allowed and
is not an error), all other columns are required. -/
structure RawSubmission where
  roundId : Option String
  trackUri : Option String
  submitterId : Option String
  title : Option String
  artist : Option String
  comment : Option String
  created : Option String
deriving DecidableEq, Repr

/-- A raw vote row. `load_data` touches only `Spotify URI` (merge key,
line 87), `Voter ID` (merge key, line 93) and `Created` (line 72); the
vote's `Round ID` and `Points Assigned` are never accessed during loading,
so their absence cannot abort the load — both are therefore `Option`
passthrough values here. -/
structure RawVote where
  roundId : Option String
  trackUri : Option String
  voterId : Option String
  points : Option Int
  created : Option String
deriving DecidableEq, Repr

/-- The four CSV files as read from disk, before `load_data`'s processing. -/
structure RawData where
  competitors : List RawCompetitor
  rounds : List RawRound
  submissions : List RawSubmission
  votes : List RawVote
deriving DecidableEq, Repr

/-- Process every row with a fallible step; the first failure aborts the
whole table (the exception propagates to `load_data`'s `except`). -/
def optMapM (f : α → Option β) : List α → Option (List β)
  | [] => some []
  | a :: t =>
    match f a, optMapM f t with
    | some b, some bs => some (b :: bs)
    | _, _ => none

/-- Load one competitor row: both required columns must be present. -/
def loadCompetitor (r : RawCompetitor) : Option Competitor := do
  let i ← r.id
  let n ← r.name
  pure ⟨i, n⟩

/-- Load one round row: required columns plus
`pd.to_datetime(rounds['Created'])` (main.py line 70), which raises on an
unparsable timestamp; the parser `p` is a parameter (`none` = raises). -/
def loadRound (p : String → Option Nat) (r : RawRound) : Option Round := do
  let i ← r.id
  let n ← r.name
  let cs ← r.created
  let c ← p cs
  pure ⟨i, n, c⟩

/-- Load one submission row. Required are exactly the columns `load_data`
accesses: `Created` (to_datetime, line 71), `Round ID` (merge key, line
77), and `Spotify URI`/`Title`/`Artist(s)` (the slice at lines 84-85); the
`Comment` value passes through unchanged, absent or not. `Submitter ID` is
NEVER accessed during loading, so its absence does not abort the load: it
passes through with the empty string standing for the absent column,
which no load-step operation reads. -/
def loadSubmission (p : String → Option Nat) (r : RawSubmission) :
    Option Submission := do
  let rid ← r.roundId
  let uri ← r.trackUri
  let t ← r.title
  let a ← r.artist
  let cs ← r.created
  let c ← p cs
  pure ⟨rid, uri, r.submitterId.getD "", t, a, r.comment, c⟩

/-- Load one vote row. Required are exactly the columns `load_data`
accesses: `Created` (to_datetime, line 72), `Spotify URI` (merge key, line
87) and `Voter ID` (merge key, line 93). The vote's `Round ID` and
`Points Assigned` are NEVER accessed during loading, so their absence does
not abort the load: they pass through with placeholder values (`""` and
`0`) standing for the absent columns, which no load-step operation
reads. -/
def loadVote (p : String → Option Nat) (r : RawVote) : Option Vote := do
  let uri ← r.trackUri
  let vid ← r.voterId
  let cs ← r.created
  let c ← p cs
  pure ⟨r.roundId.getD "", uri, vid, r.points.getD 0, c⟩

/-- The tuple `load_data` returns on success (main.py line 98): the four base
tables plus the two derived views, all built from the same parsed tables. -/
structure Dataset where
  competitors : List Competitor
  rounds : List Round
  submissions : List Submission
  votes : List Vote
  enrichedVotes : List EnrichedVote
  enrichedSubs : List EnrichedSub
deriving DecidableEq, Repr

/-- `load_data` (main.py lines 59-102): parse the four tables, convert the
timestamp columns, build the two merged views; any failure anywhere is
caught by the `except` clause, which returns the all-`None` sentinel
(modelled as `none`) — never a partial dataset. -/
def loadData (p : String → Option Nat) (raw : RawData) : Option Dataset :=
  match optMapM loadCompetitor raw.competitors,
      optMapM (loadRound p) raw.rounds,
      optMapM (loadSubmission p) raw.submissions,
      optMapM (loadVote p) raw.votes with
  | some cs, some rs, some ss, some vs =>
    some ⟨cs, rs, ss, vs,
      mergeVotesVoters (mergeVotesSubs vs (mergeSubsRounds ss rs)) cs,
      mergeSubsRounds ss rs⟩
  | _, _, _, _ => none

/-- A raw competitor row loads without error. -/
def rawCompetitorOk (r : RawCompetitor) : Bool :=
  r.id.isSome && r.name.isSome

/-- A raw round row loads without error under parser `p`. -/
def rawRoundOk (p : String → Option Nat) (r : RawRound) : Bool :=
  r.id.isSome && r.name.isSome && (r.created.bind p).isSome

/-- A raw submission row loads without error under parser `p`:
`Submitter ID` is deliberately NOT checked, since `load_data` never
accesses it. -/
def rawSubmissionOk (p : String → Option Nat) (r : RawSubmission) : Bool :=
  r.roundId.isSome && r.trackUri.isSome &&
    r.title.isSome && r.artist.isSome && (r.created.bind p).isSome

/-- A raw vote row loads without error under parser `p`: the vote's
`Round ID` and `Points Assigned` are deliberately NOT checked, since
`load_data` never accesses them. -/
def rawVoteOk (p : String → Option Nat) (r : RawVote) : Bool :=
  r.trackUri.isSome && r.voterId.isSome && (r.created.bind p).isSome

/-- Every required field of every row is present and every timestamp
parses: exactly the inputs on which `load_data` does not hit its `except`. -/
def rawDataOk (p : String → Option Nat) (raw : RawData) : Bool :=
  raw.competitors.all rawCompetitorOk && raw.rounds.all (rawRoundOk p) &&
    raw.submissions.all (rawSubmissionOk p) && raw.votes.all (rawVoteOk p)

/-- The round filter on the submissions view (main.py line 140):
`submissions_with_rounds[submissions_with_rounds['Round ID'] == round_id]`. -/
def filterRoundSubs (rid : String) (ss : List EnrichedSub) :
    List EnrichedSub :=
  ss.filter fun s => s.roundId == rid

/-- The round filter on the votes view (main.py line 139):
`votes_with_voters[votes_with_voters['Round ID'] == round_id]`. -/
def filterRoundVotes (rid : String) (vs : List EnrichedVote) :
    List EnrichedVote :=
  vs.filter fun v => v.roundId == rid

/-- The competitor filter on the submissions view (main.py line 148):
`filtered_submissions[filtered_submissions['Submitter ID'] == competitor_id]`. -/
def filterCompSubs (cid : String) (ss : List EnrichedSub) :
    List EnrichedSub :=
  ss.filter fun s => s.submitterId == cid

/-- The competitor filter on the votes view (main.py line 147):
`filtered_votes[filtered_votes['Voter ID'] == competitor_id]`. -/
def filterCompVotes (cid : String) (vs : List EnrichedVote) :
    List EnrichedVote :=
  vs.filter fun v => v.voterId == cid

/-- The sidebar filter application (main.py lines 137-148): the round filter
(if a specific round is selected) followed by the competitor filter (if a
specific competitor is selected), yielding
`(filtered_submissions, filtered_votes)`. -/
def applyFilters (roundSel compSel : Option String)
    (es : List EnrichedSub) (ev : List EnrichedVote) :
    List EnrichedSub × List EnrichedVote :=
  let fs :=
    match roundSel with
    | some rid => filterRoundSubs rid es
    | none => es
  let fv :=
    match roundSel with
    | some rid => filterRoundVotes rid ev
    | none => ev
  match compSel with
  | some cid => (filterCompSubs cid fs, filterCompVotes cid fv)
  | none => (fs, fv)

/-- Name-to-id resolution for rounds (main.py lines 138, 506):
`rounds[rounds['Name'] == selected_round]['ID'].iloc[0]` — the id of the
FIRST row whose `Name` matches; `none` models the `IndexError` that
`iloc[0]` raises when nothing matches. -/
def resolveRoundId (rounds : List Round) (nm : String) : Option String :=
  ((rounds.filter fun r => r.name == nm).head?).map fun r => r.id

/-- Name-to-id resolution for competitors (main.py lines 146, 686):
`competitors[competitors['Name'] == selected_competitor]['ID'].iloc[0]`. -/
def resolveCompetitorId (competitors : List Competitor) (nm : String) :
    Option String :=
  ((competitors.filter fun c => c.name == nm).head?).map fun c => c.id

/-- The comment predicate used throughout main.py (e.g. line 351):
`Comment.notna() & (Comment != '')`. -/
def hasComment (c : Option String) : Bool :=
  match c with
  | some s => s != ""
  | none => false

/-- `total_comments` (main.py line 351): the number of filtered submissions
with a non-null, non-empty comment. -/
def totalComments (ss : List EnrichedSub) : Nat :=
  (ss.filter fun s => hasComment s.comment).length

/-- `comment_rate` (main.py line 355):
`(total_comments / len(filtered_submissions)) * 100`. The division is
Python `/`, which raises `ZeroDivisionError` when `filtered_submissions` is
empty — modelled as `none`. -/
def commentRate (ss : List EnrichedSub) : Option ℚ :=
  if ss.length = 0 then none
  else some (((totalComments ss : ℚ) / (ss.length : ℚ)) * 100)

/-- `avg_comment_length` (main.py line 359): the mean length of the
non-empty comments; pandas `.mean()` of an empty series is NaN, modelled as
`none`. -/
def avgCommentLength (ss : List EnrichedSub) : Option ℚ :=
  let lens := (ss.filter fun s => hasComment s.comment).map fun s =>
    ((s.comment.getD "").length : ℚ)
  if lens.length = 0 then none else some (lens.sum / (lens.length : ℚ))

/-- Pandas `.mean()` guarded by the caller's `if ... > 0 else 0` pattern
(main.py lines 614, 619): the mean when the list is non-empty, `0`
otherwise. -/
def meanOrZero (xs : List Int) : ℚ :=
  if xs.length = 0 then 0 else ((xs.sum : ℚ) / (xs.length : ℚ))

/-- The join used for points received (main.py lines 608-611 and 690-693):
`votes.merge(submissions[['Spotify URI','Submitter ID']], on='Spotify URI')`
— again on `Spotify URI` alone. -/
def votesJoinSubs (votes : List Vote) (submissions : List Submission) :
    List (Vote × Submission) :=
  votes.flatMap fun v =>
    (submissions.filter fun s => s.trackUri == v.trackUri).map fun s => (v, s)

/-- One row of the `competitor_stats` table (main.py lines 624-632). -/
structure CompetitorStat where
  name : String
  submissionCount : Nat
  pointsReceived : Int
  avgPointsReceived : ℚ
  votesCast : Nat
  avgPointsGiven : ℚ
  commentCount : Nat
deriving DecidableEq, Repr

/-- The per-competitor rollup body (main.py lines 602-633): submissions by
the competitor; votes received via the `Spotify URI` join restricted to
`Submitter ID == competitor['ID']`; votes cast via `Voter ID`; the two
averages default to `0` on an empty group (`... if len > 0 else 0`). -/
def competitorStat (submissions : List Submission) (votes : List Vote)
    (c : Competitor) : CompetitorStat :=
  let compSubs := submissions.filter fun s => s.submitterId == c.id
  let compVotes := (votesJoinSubs votes submissions).filter fun pr =>
    pr.2.submitterId == c.id
  let received := compVotes.map fun pr => pr.1.points
  let cast := votes.filter fun v => v.voterId == c.id
  let given := cast.map fun v => v.points
  { name := c.name,
    submissionCount := compSubs.length,
    pointsReceived := received.sum,
    avgPointsReceived := if compVotes.length > 0 then meanOrZero received else 0,
    votesCast := cast.length,
    avgPointsGiven := if cast.length > 0 then meanOrZero given else 0,
    commentCount := (compSubs.filter fun s => hasComment s.comment).length }

/-- `competitor_stats` (main.py lines 600-635): one row per competitor, in
the order of the competitors table. -/
def competitorStats (competitors : List Competitor)
    (submissions : List Submission) (votes : List Vote) :
    List CompetitorStat :=
  competitors.map (competitorStat submissions votes)

/-- Insert `a` into a descending-sorted list, before the first element
whose value does not exceed `a`'s: the insertion step of a stable
descending sort (ties keep the earlier element first). -/
def insertDesc {α β : Type} [LinearOrder β] (f : α → β) (a : α) :
    List α → List α
  | [] => [a]
  | b :: t => if f b ≤ f a then a :: b :: t else b :: insertDesc f a t

/-- Stable descending insertion sort by the value `f`: rows with equal
values keep their original relative order. -/
def sortDescBy {α β : Type} [LinearOrder β] (f : α → β) : List α → List α
  | [] => []
  | a :: t => insertDesc f a (sortDescBy f t)

/-- Pandas `DataFrame.nlargest(n, column)` with the default `keep='first'`
(main.py lines 641, 655): the first `n` rows ordered by the column
descending, ties kept in their original row order (a stable descending
sort followed by `take n`). -/
def nlargestBy {α β : Type} [LinearOrder β] (n : Nat) (f : α → β)
    (rows : List α) : List α :=
  (sortDescBy f rows).take n

/-- A concrete timestamp parser (digit strings only), used to instantiate
the parser parameter of `loadData` on concrete inputs; `pd.to_datetime`
accepts more formats, but the load logic is parametric in the parser. -/
def parseTimestamp (s : String) : Option Nat :=
  if s.data ≠ [] && s.data.all Char.isDigit then
    some (s.data.foldl (fun n c => n * 10 + (c.toNat - 48)) 0)
  else none

/-- The four overview metric cards (main.py lines 163-195): `len(rounds)`,
`len(competitors)`, `len(submissions)`, `len(votes)` — read from the base
tables of the dataset, not from the filtered views. -/
def overviewMetrics (ds : Dataset) : Nat × Nat × Nat × Nat :=
  (ds.rounds.length, ds.competitors.length, ds.submissions.length,
    ds.votes.length)

/-- The Overview tab as `main` computes it (lines 137-148 then 163-195):
the sidebar filters are applied first, then the four metric cards are
rendered from the unfiltered base tables. -/
def mainOverview (ds : Dataset) (roundSel compSel : Option String) :
    Nat × Nat × Nat × Nat :=
  let _filtered := applyFilters roundSel compSel ds.enrichedSubs ds.enrichedVotes
  overviewMetrics ds

/-! ### Concrete fixtures used to instantiate the theorems below -/

/-- Two rounds; the same track `T` is submitted in both (the spec's
"resubmitted across rounds" case). -/
def exC1rounds : List Round := [⟨"r1", "Round One", 0⟩, ⟨"r2", "Round Two", 0⟩]

/-- Track `T` submitted by `A` in round `r1` and again by `B` in round
`r2`. -/
def exC1subs : List Submission :=
  [⟨"r1", "T", "A", "t1", "a1", none, 0⟩, ⟨"r2", "T", "B", "t2", "a2", none, 0⟩]

/-- A single vote on track `T`, cast in round `r1`. -/
def exC1votes : List Vote := [⟨"r1", "T", "C", 5, 0⟩]

/-- The enriched submissions of the two-round fixture. -/
def exC1es : List EnrichedSub := mergeSubsRounds exC1subs exC1rounds

/-- The round-`r1` vote of the fixture. -/
def exC1vote : Vote := ⟨"r1", "T", "C", 5, 0⟩

/-- The round-`r2` enriched submission of track `T` — the OTHER round's
submission, which the vote above nevertheless joins to. -/
def exC1crossSub : EnrichedSub := ⟨"r2", "T", "B", "t2", "a2", none, 0, "Round Two"⟩

/-- A raw dataset whose one vote references `(r1, U)` while the only
submission is `(r1, T)`: an orphan vote. -/
def exC2raw : RawData :=
  { competitors := [⟨some "A", some "Ann"⟩, ⟨some "C", some "Cal"⟩],
    rounds := [⟨some "r1", some "Round One", some "1"⟩],
    submissions := [⟨some "r1", some "T", some "A", some "t", some "a", none, some "2"⟩],
    votes := [⟨some "r1", some "U", some "C", some 3, some "3"⟩] }

/-- An orphan vote: no submission carries its track URI. -/
def exC2vote : Vote := ⟨"r1", "U", "C", 3, 0⟩

/-- The enriched submissions the orphan vote fails to match. -/
def exC2es : List EnrichedSub := [⟨"r1", "T", "A", "t", "a", none, 0, "Round One"⟩]

/-- A raw dataset with one unparsable timestamp (`oops`). -/
def exC3bad : RawData :=
  { competitors := [⟨some "A", some "Ann"⟩],
    rounds := [⟨some "r1", some "R", some "oops"⟩],
    submissions := [], votes := [] }

/-- A fully well-formed raw dataset. -/
def exC3good : RawData :=
  { competitors := [⟨some "A", some "Ann"⟩],
    rounds := [⟨some "r1", some "R", some "1"⟩],
    submissions := [⟨some "r1", some "T", some "A", some "t", some "a", some "nice", some "2"⟩],
    votes := [⟨some "r1", some "T", some "A", some 5, some "3"⟩] }

/-- The dataset `loadData parseTimestamp exC3good` produces. -/
def exC3ds : Dataset :=
  { competitors := [⟨"A", "Ann"⟩],
    rounds := [⟨"r1", "R", 1⟩],
    submissions := [⟨"r1", "T", "A", "t", "a", some "nice", 2⟩],
    votes := [⟨"r1", "T", "A", 5, 3⟩],
    enrichedVotes :=
      [⟨"r1", "T", "A", 5, 3, "t", "a", "r1", "R", some "nice", "Ann"⟩],
    enrichedSubs := [⟨"r1", "T", "A", "t", "a", some "nice", 2, "R"⟩] }

/-- A raw dataset in which fields the spec calls required are absent from
columns `load_data` never reads: the submission lacks its `Submitter ID`,
and the vote lacks both its `Round ID` and its `Points Assigned`. -/
def exC3missing : RawData :=
  { competitors := [⟨some "A", some "Ann"⟩],
    rounds := [⟨some "r1", some "R", some "1"⟩],
    submissions := [⟨some "r1", some "T", none, some "t", some "a", none, some "2"⟩],
    votes := [⟨none, some "T", some "A", none, some "3"⟩] }

/-- Two rounds, all submissions in `r1`: selecting `r2` gives an empty
filtered submission set. -/
def exC6rounds : List Round := [⟨"r1", "Round One", 0⟩, ⟨"r2", "Round Two", 0⟩]

/-- The enriched submissions of the `exC6rounds` dataset (all in `r1`). -/
def exC6es : List EnrichedSub :=
  mergeSubsRounds [⟨"r1", "T", "A", "t", "a", some "hi", 0⟩] exC6rounds

/-- The enriched votes of the same dataset (all in `r1`). -/
def exC6ev : List EnrichedVote :=
  [⟨"r1", "T", "C", 5, 0, "t", "a", "r1", "Round One", some "hi", "Cal"⟩]

/-- Competitors listed with `B` (id `2`) before `A` (id `1`). -/
def exC7comps : List Competitor := [⟨"2", "B"⟩, ⟨"1", "A"⟩]

/-- One submission each, so `A` and `B` tie on submission count. -/
def exC7subs : List Submission :=
  [⟨"r1", "U1", "2", "u1", "x", none, 0⟩, ⟨"r1", "U2", "1", "u2", "y", none, 0⟩]

/-- The end-to-end rollup fixture of spec section 8: three competitors,
one round, submissions `A → S1`, `B → S2`. -/
def exC8comps : List Competitor := [⟨"A", "Ann"⟩, ⟨"B", "Bob"⟩, ⟨"C", "Cal"⟩]

/-- Submissions `A → S1` and `B → S2` in round `R1`. -/
def exC8subs : List Submission :=
  [⟨"R1", "S1", "A", "s1", "x", none, 0⟩, ⟨"R1", "S2", "B", "s2", "y", none, 0⟩]

/-- Votes `C → S1 = 5`, `C → S2 = 3`, `A → S2 = 4`; `B` casts none. -/
def exC8votes : List Vote :=
  [⟨"R1", "S1", "C", 5, 0⟩, ⟨"R1", "S2", "C", 3, 0⟩, ⟨"R1", "S2", "A", 4, 0⟩]

/-- A competitor who neither submitted, voted, nor received votes. -/
def exC8compD : Competitor := ⟨"D", "Dee"⟩

/-- Two distinct rounds sharing the display name `R`. -/
def exC9rounds : List Round := [⟨"r1", "R", 0⟩, ⟨"r2", "R", 1⟩]

/-- Two distinct competitors sharing the display name `N`. -/
def exC9comps : List Competitor := [⟨"c1", "N"⟩, ⟨"c2", "N"⟩]

/-- Rounds before the first name match (no match among them). -/
def exC9pre : List Round := [⟨"r0", "Q", 0⟩]

/-- Rounds after the first match, containing a colliding second `R`. -/
def exC9post : List Round := [⟨"r2", "R", 1⟩]

/-- The first round named `R`. -/
def exC9r : Round := ⟨"r1", "R", 0⟩

/-- Competitors before the first name match. -/
def exC9cpre : List Competitor := [⟨"c0", "M"⟩]

/-- Competitors after the first match, containing a colliding second `N`. -/
def exC9cpost : List Competitor := [⟨"c2", "N"⟩]

/-- The first competitor named `N`. -/
def exC9c : Competitor := ⟨"c1", "N"⟩

/-! ### Helper lemmas about loading -/

/-- `optMapM` succeeds exactly when every row-step succeeds. -/
theorem optMapM_isSome (f : α → Option β) (l : List α) :
    (optMapM f l).isSome = l.all fun a => (f a).isSome := by
  induction l with
  | nil => rfl
  | cons a t ih =>
    simp only [optMapM, List.all_cons, ← ih]
    cases f a <;> cases optMapM f t <;> rfl

/-- Loading a competitor row succeeds exactly when the row is well-formed. -/
theorem loadCompetitor_isSome (r : RawCompetitor) :
    (loadCompetitor r).isSome = rawCompetitorOk r := by
  obtain ⟨i, n⟩ := r
  cases i <;> cases n <;> rfl

/-- Loading a round row succeeds exactly when the row is well-formed. -/
theorem loadRound_isSome (p : String → Option Nat) (r : RawRound) :
    (loadRound p r).isSome = rawRoundOk p r := by
  obtain ⟨i, n, cs⟩ := r
  cases i <;> cases n <;> cases cs <;> try rfl
  rename_i v
  cases h : p v <;> simp [loadRound, rawRoundOk, h]

/-- Loading a submission row succeeds exactly when the row is
well-formed. -/
theorem loadSubmission_isSome (p : String → Option Nat) (r : RawSubmission) :
    (loadSubmission p r).isSome = rawSubmissionOk p r := by
  obtain ⟨rid, uri, sid, t, a, cm, cs⟩ := r
  cases rid <;> cases uri <;> cases t <;> cases a <;> cases cs <;>
    try rfl
  rename_i v
  cases h : p v <;> simp [loadSubmission, rawSubmissionOk, h]

/-- Loading a vote row succeeds exactly when the row is well-formed. -/
theorem loadVote_isSome (p : String → Option Nat) (r : RawVote) :
    (loadVote p r).isSome = rawVoteOk p r := by
  obtain ⟨rid, uri, vid, pts, cs⟩ := r
  cases uri <;> cases vid <;> cases cs <;> try rfl
  rename_i v
  cases h : p v <;> simp [loadVote, rawVoteOk, h]

/-- `loadData` succeeds exactly when every required field is present and
every timestamp parses. -/
theorem loadData_isSome (p : String → Option Nat) (raw : RawData) :
    (loadData p raw).isSome = rawDataOk p raw := by
  have hc : (optMapM loadCompetitor raw.competitors).isSome =
      raw.competitors.all rawCompetitorOk := by
    rw [optMapM_isSome]
    exact congrArg raw.competitors.all (funext fun a => loadCompetitor_isSome a)
  have hr : (optMapM (loadRound p) raw.rounds).isSome =
      raw.rounds.all (rawRoundOk p) := by
    rw [optMapM_isSome]
    exact congrArg raw.rounds.all (funext fun a => loadRound_isSome p a)
  have hs : (optMapM (loadSubmission p) raw.submissions).isSome =
      raw.submissions.all (rawSubmissionOk p) := by
    rw [optMapM_isSome]
    exact congrArg raw.submissions.all (funext fun a => loadSubmission_isSome p a)
  have hv : (optMapM (loadVote p) raw.votes).isSome =
      raw.votes.all (rawVoteOk p) := by
    rw [optMapM_isSome]
    exact congrArg raw.votes.all (funext fun a => loadVote_isSome p a)
  unfold loadData rawDataOk
  rw [← hc, ← hr, ← hs, ← hv]
  cases optMapM loadCompetitor raw.competitors <;>
    cases optMapM (loadRound p) raw.rounds <;>
    cases optMapM (loadSubmission p) raw.submissions <;>
    cases optMapM (loadVote p) raw.votes <;> rfl

/-! ### Helper lemmas about the stable descending sort -/

/-- Membership in an insertion step. -/
theorem mem_insertDesc {α β : Type} [LinearOrder β] (f : α → β) (a x : α)
    (l : List α) : x ∈ insertDesc f a l ↔ x = a ∨ x ∈ l := by
  induction l with
  | nil => simp [insertDesc]
  | cons b t ih =>
    by_cases h : f b ≤ f a
    · simp [insertDesc, h]
    · simp only [insertDesc, if_neg h, List.mem_cons, ih]
      tauto

/-- Inserting into a descending-sorted list keeps it descending-sorted. -/
theorem pairwise_insertDesc {α β : Type} [LinearOrder β] (f : α → β) (a : α)
    {l : List α} (hl : l.Pairwise fun x y => f y ≤ f x) :
    (insertDesc f a l).Pairwise fun x y => f y ≤ f x := by
  induction l with
  | nil => simp [insertDesc]
  | cons b t ih =>
    rw [List.pairwise_cons] at hl
    by_cases h : f b ≤ f a
    · rw [insertDesc, if_pos h, List.pairwise_cons]
      refine ⟨?_, List.pairwise_cons.mpr hl⟩
      intro y hy
      rcases List.mem_cons.mp hy with rfl | hyt
      · exact h
      · exact le_trans (hl.1 y hyt) h
    · rw [insertDesc, if_neg h, List.pairwise_cons]
      refine ⟨?_, ih hl.2⟩
      intro y hy
      rcases (mem_insertDesc f a y t).mp hy with rfl | hyt
      · exact le_of_lt (lt_of_not_le h)
      · exact hl.1 y hyt

/-- The stable descending sort is descending-sorted. -/
theorem pairwise_sortDescBy {α β : Type} [LinearOrder β] (f : α → β)
    (l : List α) : (sortDescBy f l).Pairwise fun x y => f y ≤ f x := by
  induction l with
  | nil => simp [sortDescBy]
  | cons a t ih => exact pairwise_insertDesc f a ih

/-- Sorting a list that is already descending-sorted changes nothing. -/
theorem sortDescBy_of_pairwise {α β : Type} [LinearOrder β] (f : α → β)
    {l : List α} (hl : l.Pairwise fun x y => f y ≤ f x) :
    sortDescBy f l = l := by
  induction l with
  | nil => rfl
  | cons a t ih =>
    rw [List.pairwise_cons] at hl
    rw [sortDescBy, ih hl.2]
    cases t with
    | nil => rfl
    | cons b t2 =>
      rw [insertDesc, if_pos (hl.1 b (List.mem_cons_self b t2))]

/-- Rows of any fixed value keep their relative order through an
insertion step. -/
theorem filter_insertDesc {α β : Type} [LinearOrder β] (f : α → β) (a : α)
    (v : β) (l : List α) :
    (insertDesc f a l).filter (fun x => decide (f x = v)) =
      if f a = v then a :: l.filter (fun x => decide (f x = v))
      else l.filter (fun x => decide (f x = v)) := by
  induction l with
  | nil =>
    by_cases h : f a = v <;> simp [insertDesc, h]
  | cons b t ih =>
    by_cases hba : f b ≤ f a
    · rw [insertDesc, if_pos hba]
      by_cases h : f a = v <;> simp [List.filter_cons, h]
    · rw [insertDesc, if_neg hba]
      have hbv : f a = v → ¬(f b = v) := by
        intro h1 h2
        exact hba (le_of_eq (h2.trans h1.symm))
      by_cases h : f a = v
      · simp only [List.filter_cons, ih, if_pos h]
        rw [if_neg (by simpa using hbv h)]
        simp [hbv h]
      · simp only [List.filter_cons, ih, if_neg h]

/-- Stability: the rows of any fixed value appear in the sorted output in
their original input order. -/
theorem filter_sortDescBy {α β : Type} [LinearOrder β] (f : α → β) (v : β)
    (l : List α) :
    (sortDescBy f l).filter (fun x => decide (f x = v)) =
      l.filter (fun x => decide (f x = v)) := by
  induction l with
  | nil => rfl
  | cons a t ih =>
    rw [sortDescBy, filter_insertDesc, ih]
    by_cases h : f a = v <;> simp [List.filter_cons, h]

/-! ### The claims -/

/-- Claim C1, counterexample: with track `T` submitted in both rounds, the
single vote cast in round `r1` joins to TWO enriched rows — one whose
submission round is `r2`, not the vote's round. The join is not on the
composite key `(round_id, track_uri)`. -/
theorem c1_counterexample :
    exC1votes.length = 1 ∧
    ((mergeVotesSubs exC1votes (mergeSubsRounds exC1subs exC1rounds)).map
      fun w => (w.roundId, w.subRoundId)) = [("r1", "r1"), ("r1", "r2")] := by
  decide

/-- Claim C1, amended: the join producing the enriched votes matches each
vote to EVERY submission sharing its `Spotify URI`, regardless of round —
a row appears in `votes_with_submissions` precisely for each (vote,
submission) pair with equal track URI. -/
theorem c1_join_on_track_uri_alone (votes : List Vote)
    (es : List EnrichedSub) (w : VoteWithSub) :
    w ∈ mergeVotesSubs votes es ↔
      ∃ v ∈ votes, ∃ e ∈ es, e.trackUri = v.trackUri ∧ w = joinVoteSub v e := by
  constructor
  · intro hw
    rcases List.mem_flatMap.mp hw with ⟨v, hv, hw2⟩
    rcases List.mem_map.mp hw2 with ⟨e, he2, rfl⟩
    rcases List.mem_filter.mp he2 with ⟨he, ht⟩
    exact ⟨v, hv, e, he, by simpa using ht, rfl⟩
  · rintro ⟨v, hv, e, he, ht, rfl⟩
    exact List.mem_flatMap.mpr
      ⟨v, hv, List.mem_map.mpr ⟨e, List.mem_filter.mpr ⟨he, by simpa using ht⟩, rfl⟩⟩

/-- Witness for C1: the round-`r1` vote on track `T` is joined to the
round-`r2` submission of the same track. -/
theorem c1_join_on_track_uri_alone_witness :
    joinVoteSub exC1vote exC1crossSub ∈ mergeVotesSubs exC1votes exC1es :=
  (c1_join_on_track_uri_alone exC1votes exC1es _).mpr
    ⟨exC1vote, by decide, exC1crossSub, by decide, by decide, rfl⟩

/-- Claim C2, counterexample: a dataset whose one vote references a
`(round_id, track_uri)` pair with no matching submission loads
successfully (no error of any kind is raised) and the vote is silently
absent from the enriched votes view: 1 vote in, 0 enriched rows out. -/
theorem c2_counterexample :
    (loadData parseTimestamp exC2raw).map
      (fun d => (d.votes.length, d.enrichedVotes.length)) = some (1, 0) := by
  decide

/-- Claim C2, amended: a vote whose track URI matches no submission is
silently dropped by the inner merge — removing it leaves the joined view
unchanged, and no error path exists in the join. -/
theorem c2_orphan_vote_silently_dropped (v : Vote) (votes : List Vote)
    (es : List EnrichedSub) (h : ∀ e ∈ es, e.trackUri ≠ v.trackUri) :
    mergeVotesSubs (v :: votes) es = mergeVotesSubs votes es := by
  have hnil : es.filter (fun e => e.trackUri == v.trackUri) = [] :=
    List.filter_eq_nil_iff.mpr fun e he => by simpa using h e he
  simp only [mergeVotesSubs, List.flatMap_cons, hnil, List.map_nil,
    List.nil_append]

/-- Witness for C2: dropping the concrete orphan vote changes nothing. -/
theorem c2_orphan_vote_silently_dropped_witness :
    mergeVotesSubs (exC2vote :: []) exC2es = mergeVotesSubs [] exC2es :=
  c2_orphan_vote_silently_dropped exC2vote [] exC2es (by decide)

/-- Claim C3, counterexample: a dataset whose submission lacks its
`Submitter ID` and whose vote lacks both its `Round ID` and its
`Points Assigned` — all fields the spec's data model calls required —
loads successfully, with no `LoadError` outcome: `load_data` never
accesses those columns, so their absence cannot abort the load, refuting
"for every input in which any required field is absent ... load returns a
LoadError outcome". -/
theorem c3_counterexample :
    exC3missing.submissions.map (fun r => r.submitterId) = [none] ∧
    exC3missing.votes.map (fun r => (r.roundId, r.points)) = [(none, none)] ∧
    (loadData parseTimestamp exC3missing).map
      (fun d => (d.submissions.length, d.votes.length)) = some (1, 1) := by
  decide

/-- Claim C3, amended: loading is all-or-nothing over the columns
`load_data` actually touches. It succeeds exactly when, in every row, the
accessed required fields are present (competitors `ID`/`Name`; rounds
`ID`/`Name`/`Created`; submissions `Round ID`/`Spotify URI`/`Title`/
`Artist(s)`/`Created`; votes `Spotify URI`/`Voter ID`/`Created`) and every
timestamp parses — otherwise the `except` returns the all-`None` sentinel,
never a partial dataset — and any successfully returned dataset is
complete: its enriched views are the joins of its own base tables, so
downstream joins never see a mixed state. Fields `load_data` never
accesses (submissions' `Submitter ID`, votes' `Round ID` and
`Points Assigned`) are not validated and their absence does not abort the
load. -/
theorem c3_load_all_or_nothing (p : String → Option Nat) (raw : RawData) :
    ((loadData p raw).isSome = rawDataOk p raw) ∧
    ∀ d : Dataset, loadData p raw = some d →
      d.enrichedSubs = mergeSubsRounds d.submissions d.rounds ∧
      d.enrichedVotes =
        mergeVotesVoters (mergeVotesSubs d.votes d.enrichedSubs) d.competitors := by
  refine ⟨loadData_isSome p raw, ?_⟩
  intro d hd
  unfold loadData at hd
  cases h1 : optMapM loadCompetitor raw.competitors with
  | none => rw [h1] at hd; exact Option.noConfusion hd
  | some cs =>
  cases h2 : optMapM (loadRound p) raw.rounds with
  | none => rw [h1, h2] at hd; exact Option.noConfusion hd
  | some rs =>
  cases h3 : optMapM (loadSubmission p) raw.submissions with
  | none => rw [h1, h2, h3] at hd; exact Option.noConfusion hd
  | some ss =>
  cases h4 : optMapM (loadVote p) raw.votes with
  | none => rw [h1, h2, h3, h4] at hd; exact Option.noConfusion hd
  | some vs =>
  rw [h1, h2, h3, h4] at hd
  injection hd with h
  subst h
  exact ⟨rfl, rfl⟩

/-- Witness for C3: the unparsable-timestamp dataset fails to load (its
failure is predicted by `rawDataOk`), and the well-formed dataset loads to
a complete snapshot whose views are the joins of its own tables. -/
theorem c3_load_all_or_nothing_witness :
    ((loadData parseTimestamp exC3bad).isSome =
        rawDataOk parseTimestamp exC3bad) ∧
    exC3ds.enrichedSubs = mergeSubsRounds exC3ds.submissions exC3ds.rounds ∧
    exC3ds.enrichedVotes = mergeVotesVoters
      (mergeVotesSubs exC3ds.votes exC3ds.enrichedSubs) exC3ds.competitors :=
  ⟨(c3_load_all_or_nothing parseTimestamp exC3bad).1,
   ((c3_load_all_or_nothing parseTimestamp exC3good).2 exC3ds (by decide)).1,
   ((c3_load_all_or_nothing parseTimestamp exC3good).2 exC3ds (by decide)).2⟩

/-- Claim C4 (confirmed): the round and competitor filters commute — on
both views, filtering by round `rid` then competitor `cid` equals
filtering by competitor then round, and the order `main` uses (round
first, then competitor) therefore equals the swapped order — and each
filter is idempotent. -/
theorem c4_filters_commute_and_idempotent (rid cid : String)
    (es : List EnrichedSub) (ev : List EnrichedVote) :
    (filterCompSubs cid (filterRoundSubs rid es) =
        filterRoundSubs rid (filterCompSubs cid es) ∧
      filterCompVotes cid (filterRoundVotes rid ev) =
        filterRoundVotes rid (filterCompVotes cid ev)) ∧
    applyFilters (some rid) (some cid) es ev =
      (filterRoundSubs rid (filterCompSubs cid es),
        filterRoundVotes rid (filterCompVotes cid ev)) ∧
    (filterRoundSubs rid (filterRoundSubs rid es) = filterRoundSubs rid es ∧
      filterRoundVotes rid (filterRoundVotes rid ev) = filterRoundVotes rid ev ∧
      filterCompSubs cid (filterCompSubs cid es) = filterCompSubs cid es ∧
      filterCompVotes cid (filterCompVotes cid ev) = filterCompVotes cid ev) := by
  have hs : filterCompSubs cid (filterRoundSubs rid es) =
      filterRoundSubs rid (filterCompSubs cid es) := by
    simp only [filterCompSubs, filterRoundSubs, List.filter_filter]
    exact List.filter_congr fun a _ => Bool.and_comm _ _
  have hv : filterCompVotes cid (filterRoundVotes rid ev) =
      filterRoundVotes rid (filterCompVotes cid ev) := by
    simp only [filterCompVotes, filterRoundVotes, List.filter_filter]
    exact List.filter_congr fun a _ => Bool.and_comm _ _
  refine ⟨⟨hs, hv⟩, ?_, ?_, ?_, ?_, ?_⟩
  · show (filterCompSubs cid (filterRoundSubs rid es),
      filterCompVotes cid (filterRoundVotes rid ev)) = _
    rw [hs, hv]
  all_goals
    simp only [filterRoundSubs, filterRoundVotes, filterCompSubs,
      filterCompVotes, List.filter_filter]
    exact List.filter_congr fun a _ => Bool.and_self _

/-- Claim C5 (confirmed): with no round selected, the competitor filter
restricts the submissions view to exactly the rows with
`Submitter ID == c` and the votes view to exactly the rows with
`Voter ID == c` — the competitor's votes CAST; membership in the filtered
votes is characterised by the voter id alone. -/
theorem c5_competitor_filter_votes_cast (cid : String)
    (es : List EnrichedSub) (ev : List EnrichedVote) :
    (∀ s : EnrichedSub,
      s ∈ (applyFilters none (some cid) es ev).1 ↔
        s ∈ es ∧ s.submitterId = cid) ∧
    (∀ v : EnrichedVote,
      v ∈ (applyFilters none (some cid) es ev).2 ↔
        v ∈ ev ∧ v.voterId = cid) := by
  constructor <;> intro x <;>
    simp [applyFilters, filterCompSubs, filterCompVotes, List.mem_filter]

/-- Claim C6 (code bug): selecting round `r2`, which has no submissions,
yields empty filtered sets without error — but the comment-rate
computation `(total_comments / len(filtered_submissions)) * 100`
(main.py line 355) then divides by zero (modelled as `none`) instead of
degrading gracefully; on a non-empty selection it succeeds. -/
theorem c6_comment_rate_fails_on_empty_selection :
    applyFilters (some "r2") none exC6es exC6ev = ([], []) ∧
    commentRate (applyFilters (some "r2") none exC6es exC6ev).1 = none ∧
    commentRate exC6es ≠ none := by
  decide

/-- Claim C7, counterexample: competitors `B` and `A` tie on submission
count, and `nlargest` (pandas `keep='first'`) returns them in input order
`[B, A]`, not in ascending-key order `[A, B]` — even though `A < B`. -/
theorem c7_counterexample :
    ((competitorStats exC7comps exC7subs []).map
      fun st => (st.name, st.submissionCount)) = [("B", 1), ("A", 1)] ∧
    ((nlargestBy 10 (fun st : CompetitorStat => st.submissionCount)
        (competitorStats exC7comps exC7subs [])).map fun st => st.name) =
      ["B", "A"] ∧
    ("A" : String) < "B" := by
  refine ⟨by decide, by decide, ?_⟩
  simp [String.lt_iff]
  decide

/-- Claim C7, amended: the top-k ranking is weakly descending by value
(not strictly — ties are allowed), it is idempotent (re-sorting its own
output with the same comparator yields the identical sequence), and ties
are broken by ORIGINAL INPUT ORDER (stability), not by ascending key. -/
theorem c7_top_k_descending_stable_idempotent {α β : Type} [LinearOrder β]
    (n : Nat) (f : α → β) (rows : List α) :
    (nlargestBy n f rows).Pairwise (fun a b => f b ≤ f a) ∧
    nlargestBy n f (nlargestBy n f rows) = nlargestBy n f rows ∧
    ∀ v : β, (sortDescBy f rows).filter (fun a => decide (f a = v)) =
      rows.filter (fun a => decide (f a = v)) := by
  refine ⟨?_, ?_, fun v => filter_sortDescBy f v rows⟩
  · exact ((pairwise_sortDescBy f rows).sublist (List.take_sublist n _))
  · unfold nlargestBy
    rw [sortDescBy_of_pairwise f
      ((pairwise_sortDescBy f rows).sublist (List.take_sublist n _)),
      List.take_take, Nat.min_self]

/-- Witness for C7: the amended ranking properties hold on the concrete
tied fixture. -/
theorem c7_top_k_descending_stable_idempotent_witness :
    (nlargestBy 10 (fun st : CompetitorStat => st.submissionCount)
      (competitorStats exC7comps exC7subs [])).Pairwise
      (fun a b => b.submissionCount ≤ a.submissionCount) ∧
    nlargestBy 10 (fun st : CompetitorStat => st.submissionCount)
      (nlargestBy 10 (fun st : CompetitorStat => st.submissionCount)
        (competitorStats exC7comps exC7subs [])) =
      nlargestBy 10 (fun st : CompetitorStat => st.submissionCount)
        (competitorStats exC7comps exC7subs []) := by
  have h := c7_top_k_descending_stable_idempotent 10
    (fun st : CompetitorStat => st.submissionCount)
    (competitorStats exC7comps exC7subs [])
  exact ⟨h.1, h.2.1⟩

/-- Claim C8, counterexample: on the spec's own end-to-end fixture, `Bob`
casts zero votes yet his rollup row reports `Avg Points Given = 0` — a
numeric default present in the output, not an omitted entry. -/
theorem c8_counterexample :
    (competitorStats exC8comps exC8subs exC8votes).map
      (fun st => (st.name, st.votesCast, st.avgPointsGiven)) =
      [("Ann", 1, 4), ("Bob", 0, 0), ("Cal", 2, 4)] := by
  simp +decide [competitorStats, competitorStat, votesJoinSubs, meanOrZero,
    exC8comps, exC8subs, exC8votes]
  norm_num

/-- Claim C8, amended: the rollup reports the mean over an empty group as
the explicit numeric default `0` (`... if len > 0 else 0`, main.py lines
614 and 619): a competitor with zero votes cast gets
`Avg Points Given = 0`, and one with zero votes received gets
`Avg Points Received = 0`; neither entry is omitted. -/
theorem c8_empty_group_reported_as_zero (submissions : List Submission)
    (votes : List Vote) (c : Competitor) :
    ((votes.filter fun v => v.voterId == c.id) = [] →
      (competitorStat submissions votes c).votesCast = 0 ∧
      (competitorStat submissions votes c).avgPointsGiven = 0) ∧
    (((votesJoinSubs votes submissions).filter fun pr =>
        pr.2.submitterId == c.id) = [] →
      (competitorStat submissions votes c).avgPointsReceived = 0) := by
  constructor
  · intro h
    constructor <;> simp [competitorStat, h]
  · intro h
    simp [competitorStat, h]

/-- Witness for C8: competitor `Dee` has no votes cast and none received;
both averages are reported as `0`. -/
theorem c8_empty_group_reported_as_zero_witness :
    (competitorStat exC8subs exC8votes exC8compD).votesCast = 0 ∧
    (competitorStat exC8subs exC8votes exC8compD).avgPointsGiven = 0 ∧
    (competitorStat exC8subs exC8votes exC8compD).avgPointsReceived = 0 :=
  ⟨((c8_empty_group_reported_as_zero exC8subs exC8votes exC8compD).1
      (by decide)).1,
   ((c8_empty_group_reported_as_zero exC8subs exC8votes exC8compD).1
      (by decide)).2,
   (c8_empty_group_reported_as_zero exC8subs exC8votes exC8compD).2
      (by decide)⟩

/-- Claim C9, counterexample: two rounds (and two competitors) share a
display name, yet `iloc[0]`-style resolution silently returns the first
matching id — no ambiguity is detected or reported. -/
theorem c9_counterexample :
    (exC9rounds.filter fun r => r.name == "R").length = 2 ∧
    resolveRoundId exC9rounds "R" = some "r1" ∧
    (exC9comps.filter fun c => c.name == "N").length = 2 ∧
    resolveCompetitorId exC9comps "N" = some "c1" := by
  decide

/-- Claim C9, amended: name resolution returns the id of the FIRST entity
whose name matches, regardless of how many later entities share that
name; its only failure mode is an `IndexError` when nothing matches —
there is no ambiguity error. -/
theorem c9_lookup_silently_takes_first_match (pre post : List Round)
    (r : Round) (cpre cpost : List Competitor) (c : Competitor)
    (nm cnm : String)
    (h1 : ∀ x ∈ pre, x.name ≠ nm) (h2 : r.name = nm)
    (h3 : ∀ x ∈ cpre, x.name ≠ cnm) (h4 : c.name = cnm) :
    resolveRoundId (pre ++ r :: post) nm = some r.id ∧
    resolveCompetitorId (cpre ++ c :: cpost) cnm = some c.id := by
  constructor
  · have hnil : pre.filter (fun x => x.name == nm) = [] :=
      List.filter_eq_nil_iff.mpr fun x hx => by simpa using h1 x hx
    simp [resolveRoundId, List.filter_append, hnil, List.filter_cons, h2]
  · have hnil : cpre.filter (fun x => x.name == cnm) = [] :=
      List.filter_eq_nil_iff.mpr fun x hx => by simpa using h3 x hx
    simp [resolveCompetitorId, List.filter_append, hnil, List.filter_cons, h4]

/-- Witness for C9: with a colliding second `R` (and second `N`) present
after the first match, resolution silently yields the first ids. -/
theorem c9_lookup_silently_takes_first_match_witness :
    resolveRoundId (exC9pre ++ exC9r :: exC9post) "R" = some "r1" ∧
    resolveCompetitorId (exC9cpre ++ exC9c :: exC9cpost) "N" = some "c1" :=
  c9_lookup_silently_takes_first_match exC9pre exC9post exC9r exC9cpre
    exC9cpost exC9c "R" "N" (by decide) (by decide) (by decide) (by decide)

/-- Claim C10 (confirmed): the four overview metric cards are computed
from the unfiltered base tables — whatever round/competitor selection is
in force, the displayed counts equal the full dataset's counts. -/
theorem c10_overview_metrics_unfiltered (ds : Dataset)
    (roundSel compSel : Option String) :
    mainOverview ds roundSel compSel = overviewMetrics ds ∧
    mainOverview ds roundSel compSel =
      (ds.rounds.length, ds.competitors.length, ds.submissions.length,
        ds.votes.length) :=
  ⟨rfl, rfl⟩
